import Mathlib

/-!
Verification of the bond valuation library (fixedrate_bond.py,
variablerate_bond.py, bondmath.py) against its natural-language
specification.  The Python code is embedded shallowly: calendar
arithmetic over ℤ/ℚ, prices and yields over ℝ (Python floats are read
as exact reals), Python exceptions as explicit error values.
-/

/-- Errors raised by the Python runtime while executing the embedded code.
There is no DomainError or ConvergenceError anywhere in the sources. -/
inductive PyErr
  | nameError         -- a free variable that is bound nowhere in scope
  | unboundLocal      -- a local variable read before any assignment
  | indexError        -- sequence index out of range
  | zeroDivisionError -- plain-Python division by zero (numpy only warns)
deriving DecidableEq

/-- A calendar date as carried by `datetime`: year, month, day. -/
structure Date where
  year : ℕ
  month : ℕ
  day : ℕ
deriving DecidableEq

/-- Strict calendar order on dates (year, then month, then day). -/
def Date.before (d e : Date) : Prop :=
  d.year < e.year ∨
    (d.year = e.year ∧ (d.month < e.month ∨ (d.month = e.month ∧ d.day < e.day)))

instance (d e : Date) : Decidable (d.before e) := by
  unfold Date.before; infer_instance

/-- calendar.monthrange(year, month)[-1]: the number of days in the month,
with the Gregorian leap rule for February. -/
def daysInMonth (year month : ℕ) : ℕ :=
  if month = 2 then
    if (year % 4 = 0 ∧ ¬ year % 100 = 0) ∨ year % 400 = 0 then 29 else 28
  else if month = 4 ∨ month = 6 ∨ month = 9 ∨ month = 11 then 30 else 31

/-- Python float modulo for positive divisors: a - b * floor (a / b). -/
def qmod (a b : ℚ) : ℚ := a - b * ⌊a / b⌋

/-- The normalized 30/360 day count of calendar_360 (both bond classes share
the same body): the transaction day and the maturity day are set to 30 when
they fall on the last calendar day of February; the maturity day 31 is
clamped to 30 when the (possibly February-normalized) transaction day is 30
or 31; a transaction day above 30 is clamped to 30; then
360 * dYear + 30 * dMonth + dDay. -/
def nDays360 (tDate mDate : Date) : ℤ :=
  let t_day := if tDate.month = 2 ∧ tDate.day = daysInMonth tDate.year tDate.month
    then 30 else tDate.day
  let m_day := if mDate.month = 2 ∧ mDate.day = daysInMonth mDate.year mDate.month
    then 30 else mDate.day
  let m_day := if (t_day = 30 ∨ t_day = 31) ∧ m_day = 31 then 30 else m_day
  let t_day := if 30 < t_day then 30 else t_day
  360 * ((mDate.year : ℤ) - tDate.year) + 30 * ((mDate.month : ℤ) - tDate.month)
    + ((m_day : ℤ) - t_day)

/-- calendar_360 of both bond classes: period count n, period length T and
remainder t from the 30/360 day count.  n = ceil(n_days / 360 * freq),
T = 360 / freq, t = T - n_days % T. -/
def calendar_360 (tDate mDate : Date) (freq : ℕ) : ℤ × ℚ × ℚ :=
  let n_days := nDays360 tDate mDate
  let n : ℤ := ⌈(n_days : ℚ) / 360 * freq⌉
  let T : ℚ := 360 / freq
  let t : ℚ := T - qmod (n_days : ℚ) T
  (n, T, t)

/-- The day-count computation exactly as the claim words it: on top of the
February normalization and the 30-or-31-vs-31 clamp, ANY day-of-month above
30 (of either date) is clamped down to 30. -/
def calendar360Claim (tDate mDate : Date) (freq : ℕ) : ℤ × ℚ × ℚ :=
  let t_day := if tDate.month = 2 ∧ tDate.day = daysInMonth tDate.year tDate.month
    then 30 else tDate.day
  let m_day := if mDate.month = 2 ∧ mDate.day = daysInMonth mDate.year mDate.month
    then 30 else mDate.day
  let m_day := if (t_day = 30 ∨ t_day = 31) ∧ m_day = 31 then 30 else m_day
  let t_day := if 30 < t_day then 30 else t_day
  let m_day := if 30 < m_day then 30 else m_day
  let n_days : ℤ := 360 * ((mDate.year : ℤ) - tDate.year)
    + 30 * ((mDate.month : ℤ) - tDate.month) + ((m_day : ℤ) - t_day)
  let n : ℤ := ⌈(n_days : ℚ) / 360 * freq⌉
  let T : ℚ := 360 / freq
  let t : ℚ := T - qmod (n_days : ℚ) T
  (n, T, t)

/-- The day-count computation as amended: identical to the claim except that
only the transaction day is unconditionally clamped when above 30; the
maturity day is clamped solely by the February rule and the 30-or-31-vs-31
rule. -/
def calendar360Amended (tDate mDate : Date) (freq : ℕ) : ℤ × ℚ × ℚ :=
  let n_days := nDays360 tDate mDate
  (⌈(n_days : ℚ) / 360 * freq⌉, 360 / freq, 360 / freq - qmod (n_days : ℚ) (360 / freq))

/-- Remaining-days part of qmod: nonnegative for a positive divisor. -/
lemma qmod_nonneg (a b : ℚ) (hb : 0 < b) : 0 ≤ qmod a b := by
  have h := Int.floor_le (a / b)
  have : b * (⌊a / b⌋ : ℚ) ≤ b * (a / b) := by
    exact mul_le_mul_of_nonneg_left h (le_of_lt hb)
  have hba : b * (a / b) = a := by field_simp
  unfold qmod
  nlinarith

/-- qmod is strictly below a positive divisor. -/
lemma qmod_lt (a b : ℚ) (hb : 0 < b) : qmod a b < b := by
  have h := Int.lt_floor_add_one (a / b)
  have : b * (a / b) < b * ((⌊a / b⌋ : ℚ) + 1) := by
    exact mul_lt_mul_of_pos_left h hb
  have hba : b * (a / b) = a := by field_simp
  unfold qmod
  nlinarith

/-- C2 counterexample input: transaction 2020-01-15, maturity 2020-03-31. -/
def c2tDate : Date := ⟨2020, 1, 15⟩

/-- C2 counterexample input: the maturity date, day-of-month 31 with a
transaction day below 30. -/
def c2mDate : Date := ⟨2020, 3, 31⟩

/-- C2: the 30/360 period computation does NOT clamp every day-of-month above
30: with transaction day 15 and maturity day 31 the code keeps the 31 (day
count 76, remainder t = 104) while the claimed normalization would clamp it
to 30 (day count 75, remainder t = 105). -/
theorem C2_counterexample :
    calendar_360 c2tDate c2mDate 2 ≠ calendar360Claim c2tDate c2mDate 2 := by
  have h76 : ⌊(76:ℚ)/180⌋ = 0 := by rw [Int.floor_eq_iff] ; norm_num
  have h75 : ⌊(75:ℚ)/180⌋ = 0 := by rw [Int.floor_eq_iff] ; norm_num
  intro h
  have h2 := congrArg (fun p => p.2.2) h
  simp only [c2tDate, c2mDate, calendar_360, calendar360Claim, nDays360, qmod,
    daysInMonth] at h2
  norm_num [h76, h75] at h2

/-- C2 (amended): the 30/360 period computation normalizes the last calendar
day of February to 30, clamps maturity day 31 to 30 when the transaction day
is 30 or 31, clamps only a transaction day above 30 down to 30, and then
returns n = ceil(nDays/360*frequency), T = 360/frequency and
t = T - (nDays mod T) over the normalized day count. -/
theorem C2_amended_eq (tDate mDate : Date) (freq : ℕ) :
    calendar_360 tDate mDate freq = calendar360Amended tDate mDate freq := rfl

/-- C10: under 30/360, for ordered dates and frequency at least 1 the
remainder satisfies 0 < t and t ≤ T, and whenever the normalized day count is
an exact multiple of the period length (nDays mod T = 0) the computation
returns exactly t = T, never t = 0. -/
theorem C10_period_invariant (tDate mDate : Date) (freq : ℕ)
    (horder : tDate.before mDate) (hfreq : 1 ≤ freq) :
    (0 < (calendar_360 tDate mDate freq).2.2 ∧
      (calendar_360 tDate mDate freq).2.2 ≤ (calendar_360 tDate mDate freq).2.1) ∧
    (qmod ((nDays360 tDate mDate : ℤ) : ℚ) ((calendar_360 tDate mDate freq).2.1) = 0 →
      (calendar_360 tDate mDate freq).2.2 = (calendar_360 tDate mDate freq).2.1) := by
  have hT : 0 < (360 : ℚ) / freq := by
    apply div_pos (by norm_num)
    exact_mod_cast Nat.lt_of_lt_of_le Nat.zero_lt_one hfreq
  simp only [calendar_360]
  refine ⟨⟨?_, ?_⟩, ?_⟩
  · have := qmod_lt ((nDays360 tDate mDate : ℤ) : ℚ) ((360 : ℚ) / freq) hT
    linarith
  · have := qmod_nonneg ((nDays360 tDate mDate : ℤ) : ℚ) ((360 : ℚ) / freq) hT
    linarith
  · intro h0
    rw [h0]
    ring

/-- C10 witness: the invariant instantiated at transaction 2011-02-14,
maturity 2020-11-15, frequency 2 (the spec's Scenario 1 dates). -/
theorem C10_period_invariant_witness :
    ((⟨2011, 2, 14⟩ : Date).before ⟨2020, 11, 15⟩ ∧ 1 ≤ 2) ∧
    ((0 < (calendar_360 ⟨2011, 2, 14⟩ ⟨2020, 11, 15⟩ 2).2.2 ∧
      (calendar_360 ⟨2011, 2, 14⟩ ⟨2020, 11, 15⟩ 2).2.2 ≤
        (calendar_360 ⟨2011, 2, 14⟩ ⟨2020, 11, 15⟩ 2).2.1) ∧
    (qmod ((nDays360 ⟨2011, 2, 14⟩ ⟨2020, 11, 15⟩ : ℤ) : ℚ)
        ((calendar_360 ⟨2011, 2, 14⟩ ⟨2020, 11, 15⟩ 2).2.1) = 0 →
      (calendar_360 ⟨2011, 2, 14⟩ ⟨2020, 11, 15⟩ 2).2.2 =
        (calendar_360 ⟨2011, 2, 14⟩ ⟨2020, 11, 15⟩ 2).2.1)) :=
  ⟨⟨by decide, by norm_num⟩,
    C10_period_invariant ⟨2011, 2, 14⟩ ⟨2020, 11, 15⟩ 2 (by decide) (by norm_num)⟩

/-- N = np.array(range(n)) + 1, the period indices 1..n. -/
def periodIdx (n : ℕ) : List ℕ := (List.range n).map (fun i => i + 1)

namespace BondInfo

/-- BondInfo.dirtyPrice (variablerate_bond.py): pmt is the per-period coupon
list, fv the face value, y the per-period yield, (n, t, T) the period info.
On-coupon branch (t = T): sum of pmt_i/(1+y)^i over zip(pmt, N) plus
fv/(1+y)^n, zero accrued interest.  Stub branch: real exponents i - t/T and
n - t/T, accrued interest pmt[1] * (t/T); reading pmt[1] raises IndexError
when the coupon list has fewer than two entries.  The coupon terms divide
numpy scalars (self.pmt is built with np.array), which only warn on a zero
denominator, but the face-value term fv/(1+y)**e is plain-Python arithmetic
and raises ZeroDivisionError when its denominator is zero: on-coupon when
1+y = 0 and n is not 0 (0.0**0 is 1.0 in Python), in the stub when 1+y = 0
and the exponent n - t/T is nonzero (a negative exponent already raises at
the power itself, with the same ZeroDivisionError).  The dirty-price line
runs before the accrual line, so the zero division precedes the pmt[1]
lookup. -/
noncomputable def dirtyPrice (pmt : List ℝ) (fv y : ℝ) (n : ℕ) (t T : ℝ) :
    Except PyErr (ℝ × ℝ × ℝ) :=
  if t = T then
    if 1 + y = 0 ∧ n ≠ 0 then Except.error PyErr.zeroDivisionError
    else
      let dp := ((pmt.zip (periodIdx n)).map (fun q => q.1 / (1 + y) ^ q.2)).sum
        + fv / (1 + y) ^ n
      Except.ok (dp, 0, dp - 0)
  else
    if 1 + y = 0 ∧ (n : ℝ) - t / T ≠ 0 then Except.error PyErr.zeroDivisionError
    else
      match pmt[1]? with
      | none => Except.error PyErr.indexError
      | some p1 =>
        let dp := ((pmt.zip (periodIdx n)).map
            (fun q => q.1 / (1 + y) ^ ((q.2 : ℝ) - t / T))).sum
          + fv / (1 + y) ^ ((n : ℝ) - t / T)
        let ai := p1 * (t / T)
        Except.ok (dp, ai, dp - ai)

/-- The residual lambda built by BondInfo.ytm_couponList: the same discounted
sum as dirtyPrice (same branch on t = T) minus the observed price. -/
noncomputable def equation (pmt : List ℝ) (fv : ℝ) (n : ℕ) (t T price : ℝ) :
    ℝ → ℝ :=
  fun x =>
    if t = T then
      ((pmt.zip (periodIdx n)).map (fun q => q.1 / (1 + x) ^ q.2)).sum
        + fv / (1 + x) ^ n - price
    else
      ((pmt.zip (periodIdx n)).map
          (fun q => q.1 / (1 + x) ^ ((q.2 : ℝ) - t / T))).sum
        + fv / (1 + x) ^ ((n : ℝ) - t / T) - price

end BondInfo

/-- Modelled from the spec: the convergence tolerance of the iterative yield
solver (scipy.optimize.newton is an external routine; the spec fixes the
contract: iterate until the residual is below tolerance). -/
noncomputable def solverTol : ℝ := 1 / 100000000

/-- Modelled from the spec: the step used to estimate the derivative of the
residual numerically. -/
noncomputable def solverH : ℝ := 1 / 1000000

/-- Modelled from the spec: the iterative root-finder of section 4.4
(Newton-Raphson with a numerically estimated derivative): starting from a
guess, stop at the current iterate as soon as the residual is within
tolerance, otherwise take a Newton step; none when the iteration budget is
exhausted without meeting tolerance. -/
noncomputable def newtonSolve (f : ℝ → ℝ) : ℕ → ℝ → Option ℝ
  | 0, _ => none
  | k + 1, y =>
    if |f y| < solverTol then some y
    else newtonSolve f k (y - f y / ((f (y + solverH) - f y) / solverH))

/-- One unfolding step of the solver. -/
lemma newtonSolve_succ (f : ℝ → ℝ) (k : ℕ) (y : ℝ) :
    newtonSolve f (k + 1) y =
      if |f y| < solverTol then some y
      else newtonSolve f k (y - f y / ((f (y + solverH) - f y) / solverH)) := rfl

namespace BondInfo

/-- BondInfo.ytm_couponList: builds the residual for the observed price,
runs the root-finder from x0 = 0.05 with maxiter = 1000 (the guess parameter
of the source is ignored: the call hard-codes x0=0.05), and returns the root
MULTIPLIED BY the coupon frequency. -/
noncomputable def ytm_couponList (pmt : List ℝ) (fv : ℝ) (n : ℕ) (t T : ℝ)
    (freq : ℕ) (price : ℝ) : Option ℝ :=
  (newtonSolve (equation pmt fv n t T price) 1000 (1 / 20)).map
    (fun r => r * freq)

end BondInfo

namespace FixedRateBond

/-- FixedRateBond.simplePrice: the closed-form constant-coupon price
pmt/y * (1 - 1/(1+y)^n) + fv/(1+y)^n. -/
noncomputable def simplePrice (pmt fv y : ℝ) (n : ℕ) : ℝ :=
  pmt / y * (1 - 1 / (1 + y) ^ n) + fv / (1 + y) ^ n

/-- FixedRateBond.dirtyPrice: in the on-coupon branch (t = T) the source
calls the bare name simplePrice() without self, which is unbound in the
function scope, so every on-coupon call raises NameError.  The stub branch
returns the closed form times (1+y)^(t/T), accrued interest pmt * (t/T).
The terms 1/(1+y)**n and fv/(1+y)**n are plain-Python divisions and raise
ZeroDivisionError when 1+y = 0 with n not 0; pmt/y is a numpy scalar
division (self.pmt comes from np.array) and never raises. -/
noncomputable def dirtyPrice (pmt fv y : ℝ) (n : ℕ) (t T : ℝ) :
    Except PyErr (ℝ × ℝ × ℝ) :=
  if t = T then
    Except.error PyErr.nameError
  else
    if 1 + y = 0 ∧ n ≠ 0 then Except.error PyErr.zeroDivisionError
    else
      let dp := (pmt / y * (1 - 1 / (1 + y) ^ n) + fv / (1 + y) ^ n)
        * (1 + y) ^ (t / T)
      let ai := pmt * (t / T)
      Except.ok (dp, ai, dp - ai)

/-- FixedRateBond.ytm_couponList: unlike the BondInfo variant it performs no
root-finding at all; it RETURNS the residual lambda itself (scalar coupon,
so every period uses the same pmt). -/
noncomputable def ytm_couponList (pmt fv : ℝ) (n : ℕ) (t T price : ℝ) :
    ℝ → ℝ :=
  fun x =>
    if t = T then
      ((periodIdx n).map (fun i => pmt / (1 + x) ^ i)).sum
        + fv / (1 + x) ^ n - price
    else
      ((periodIdx n).map (fun i => pmt / (1 + x) ^ ((i : ℝ) - t / T))).sum
        + fv / (1 + x) ^ ((n : ℝ) - t / T) - price

end FixedRateBond

/-- C4: on an exact coupon date (t = T) the fixed-rate pricing path raises
NameError (the source calls simplePrice() without self), while the
variable-rate path does return zero accrued interest, clean = dirty, and the
dirty price as the sum of amount_i/(1+y)^i with the face value folded into
the final amount. -/
theorem C4_eval :
    FixedRateBond.dirtyPrice 4 100 (1/20) 20 180 180 =
      Except.error PyErr.nameError ∧
    BondInfo.dirtyPrice [4, 4] 100 (1/20) 2 180 180 =
      Except.ok (4 / (1 + 1/20) ^ 1 + (4 + 100) / (1 + 1/20) ^ 2, 0,
        4 / (1 + 1/20) ^ 1 + (4 + 100) / (1 + 1/20) ^ 2) := by
  constructor
  · simp [FixedRateBond.dirtyPrice]
  · unfold BondInfo.dirtyPrice
    rw [if_pos rfl, if_neg (by norm_num)]
    simp [periodIdx, List.range_succ]
    norm_num

/-- C5: in the stub case the variable-rate pricing path computes accrued
interest from the SECOND coupon of the series (pmt[1]), not from the first
upcoming one: with coupons [2, 4], t/T = 1/2 and zero yield it returns
accrued interest 2 = 4 * (1/2), while the first upcoming coupon would give
2 * (90/180) = 1. -/
theorem C5_eval :
    BondInfo.dirtyPrice [2, 4] 100 0 2 90 180 = Except.ok (106, 2, 104) ∧
    (2 : ℝ) ≠ 2 * (90 / 180) := by
  constructor
  · unfold BondInfo.dirtyPrice
    rw [if_neg (by norm_num), if_neg (by norm_num)]
    simp [periodIdx, List.range_succ]
    norm_num [Real.one_rpow]
  · norm_num

/-- C7 counterexample: calls with per-period yield y ≤ -1 do not fail with a
DomainError: at y = -2 the on-coupon pricing call returns a result (all
denominators are ±1, exactly as the source computes: -104), and at y = -1 it
does fail, but with ZeroDivisionError raised by the plain-Python face-value
division fv/(1+y)^n — no DomainError guard or type exists. -/
theorem C7_counterexample :
    BondInfo.dirtyPrice [(4:ℝ)] 100 (-2) 1 180 180 = Except.ok (-104, 0, -104) ∧
    BondInfo.dirtyPrice [(4:ℝ)] 100 (-1) 1 180 180 =
      Except.error PyErr.zeroDivisionError := by
  constructor
  · unfold BondInfo.dirtyPrice
    rw [if_pos rfl, if_neg (by norm_num)]
    simp [periodIdx, List.range_succ]
    norm_num
  · unfold BondInfo.dirtyPrice
    rw [if_pos rfl, if_pos (by norm_num)]

/-- C8 counterexample: with a coupon series of length 1 and n = 3 periods the
variable-rate pricing call succeeds (zip silently truncates the schedule)
instead of failing with a ConfigurationError. -/
theorem C8_counterexample :
    (BondInfo.dirtyPrice [4] 100 (1/20) 3 180 180).isOk = true := by
  unfold BondInfo.dirtyPrice
  rw [if_pos rfl, if_neg (by norm_num)]
  rfl

/-- Zero coupons contribute nothing to the discounted zip sum. -/
lemma sum_zip_replicate_zero (f : ℝ × ℕ → ℝ) (hf : ∀ i, f (0, i) = 0) :
    ∀ (k : ℕ) (l : List ℕ), (((List.replicate k (0:ℝ)).zip l).map f).sum = 0 := by
  intro k
  induction k with
  | zero => intro l; simp
  | succ m ih =>
    intro l
    cases l with
    | nil => simp
    | cons b l' => simp [List.replicate_succ, hf, ih]

/-- Appending zero coupons to a series leaves the discounted zip sum
unchanged. -/
lemma sum_zip_append_replicate_zero (f : ℝ × ℕ → ℝ) (hf : ∀ i, f (0, i) = 0) :
    ∀ (xs : List ℝ) (k : ℕ) (l : List ℕ),
      (((xs ++ List.replicate k 0).zip l).map f).sum = ((xs.zip l).map f).sum := by
  intro xs
  induction xs with
  | nil => intro k l; simpa using sum_zip_replicate_zero f hf k l
  | cons a xs ih =>
    intro k l
    cases l with
    | nil => simp
    | cons b l' => simp [ih]

/-- C7 (amended): the pricing function has no yield-domain guard at all; the
discount formula is evaluated for every per-period yield.  Whenever
1 + y ≠ 0 (in particular for every y < -1) the variable-rate pricing call
returns a result provided the coupon series has at least two entries; when
1 + y = 0 the call fails, but with the ZeroDivisionError of the plain-Python
face-value division, never a DomainError (no such type exists in the code). -/
theorem C7_no_guard (pmt : List ℝ) (fv y : ℝ) (n : ℕ) (t T : ℝ)
    (hlen : 1 < pmt.length) (hn : n ≠ 0) :
    (1 + y ≠ 0 → (BondInfo.dirtyPrice pmt fv y n t T).isOk = true) ∧
    (1 + y = 0 → (t = T ∨ (n : ℝ) - t / T ≠ 0) →
      BondInfo.dirtyPrice pmt fv y n t T = Except.error PyErr.zeroDivisionError) := by
  constructor
  · intro hy
    by_cases h : t = T
    · simp only [BondInfo.dirtyPrice, if_pos h]
      rw [if_neg (by tauto)]
      rfl
    · simp only [BondInfo.dirtyPrice, if_neg h]
      rw [if_neg (by tauto)]
      cases hp : pmt[1]? with
      | none =>
        rw [List.getElem?_eq_none_iff] at hp
        omega
      | some p1 => rfl
  · intro hy hd
    by_cases h : t = T
    · simp only [BondInfo.dirtyPrice, if_pos h]
      rw [if_pos ⟨hy, hn⟩]
    · have he : (n : ℝ) - t / T ≠ 0 := hd.resolve_left h
      simp only [BondInfo.dirtyPrice, if_neg h]
      rw [if_pos ⟨hy, he⟩]

/-- C7 witness: the amended statement instantiated at the series [2, 4] with
yield y = -1 on a coupon date, where the call fails with ZeroDivisionError. -/
theorem C7_no_guard_witness :
    (1 < ([(2:ℝ), 4]).length ∧ (2:ℕ) ≠ 0) ∧
    ((1 + (-1:ℝ) ≠ 0 →
        (BondInfo.dirtyPrice [(2:ℝ), 4] 100 (-1) 2 180 180).isOk = true) ∧
      (1 + (-1:ℝ) = 0 → ((180:ℝ) = 180 ∨ ((2:ℕ) : ℝ) - 180 / 180 ≠ 0) →
        BondInfo.dirtyPrice [(2:ℝ), 4] 100 (-1) 2 180 180 =
          Except.error PyErr.zeroDivisionError)) :=
  ⟨⟨by norm_num, by norm_num⟩,
    C7_no_guard [(2:ℝ), 4] 100 (-1) 2 180 180 (by norm_num) (by norm_num)⟩

/-- C8 (amended): no length check relates the coupon series to the period
count; the discounted sum silently truncates at the series (zip), so a short
series prices exactly like the same series padded with zero coupons, while
the face value is still discounted over the full n periods.  (The length-two
hypothesis keeps the stub branch's pmt[1] lookup unchanged by the padding.) -/
theorem C8_pad (pmt : List ℝ) (k : ℕ) (fv y : ℝ) (n : ℕ) (t T : ℝ)
    (hlen : 1 < pmt.length) :
    BondInfo.dirtyPrice (pmt ++ List.replicate k 0) fv y n t T =
      BondInfo.dirtyPrice pmt fv y n t T := by
  have hget : (pmt ++ List.replicate k 0)[1]? = pmt[1]? := by
    rw [List.getElem?_append, if_pos hlen]
  by_cases h : t = T
  · simp only [BondInfo.dirtyPrice, if_pos h]
    by_cases hz : 1 + y = 0 ∧ n ≠ 0
    · rw [if_pos hz, if_pos hz]
    · rw [if_neg hz, if_neg hz]
      rw [sum_zip_append_replicate_zero _ (fun i => by simp) pmt k (periodIdx n)]
  · simp only [BondInfo.dirtyPrice, if_neg h, hget]
    by_cases hz : 1 + y = 0 ∧ (n : ℝ) - t / T ≠ 0
    · rw [if_pos hz, if_pos hz]
    · rw [if_neg hz, if_neg hz]
      cases hp : pmt[1]? with
      | none => rfl
      | some p1 =>
        rw [sum_zip_append_replicate_zero _ (fun i => by simp) pmt k (periodIdx n)]

/-- C8 witness: padding the series [2, 4] with three zero coupons leaves the
5-period price unchanged. -/
theorem C8_pad_witness :
    1 < ([(2:ℝ), 4]).length ∧
    BondInfo.dirtyPrice ([(2:ℝ), 4] ++ List.replicate 3 0) 100 (1/20) 5 90 180 =
      BondInfo.dirtyPrice [(2:ℝ), 4] 100 (1/20) 5 90 180 :=
  ⟨by norm_num, C8_pad [(2:ℝ), 4] 3 100 (1/20) 5 90 180 (by norm_num)⟩

/-- The period-info assignment in __init__ of both bond classes: only the
calendarDays == 360 branch computes (n, T, t); for any other basis the
branch is skipped (pass) and the following reads self.n = n, self.t = t,
self.T = T hit locals that were never assigned, raising UnboundLocalError.
The constructor's default basis is 365. -/
def initPeriod (tDate mDate : Date) (freq : ℕ) (calendarDays : ℕ) :
    Except PyErr (ℤ × ℚ × ℚ) :=
  if calendarDays = 360 then Except.ok (calendar_360 tDate mDate freq)
  else Except.error PyErr.unboundLocal

/-- C9 counterexample: constructing a bond with the ACTUAL_365 basis (the
constructor's own default, calendarDays = 365) does not produce a PeriodInfo;
it fails because n, T, t are never assigned. -/
theorem C9_counterexample :
    initPeriod ⟨2011, 2, 14⟩ ⟨2020, 11, 15⟩ 2 365 =
      Except.error PyErr.unboundLocal := rfl

/-- C9 (amended): no actual-day variant is implemented: for every basis other
than 360 the period computation of the constructor fails with
UnboundLocalError instead of returning (n, T, t). -/
theorem C9_fail (tDate mDate : Date) (freq : ℕ) (calendarDays : ℕ)
    (hb : calendarDays ≠ 360) :
    initPeriod tDate mDate freq calendarDays = Except.error PyErr.unboundLocal := by
  simp [initPeriod, hb]

/-- C9 witness: the failure at the default basis 365. -/
theorem C9_fail_witness :
    (365 : ℕ) ≠ 360 ∧
    initPeriod ⟨2020, 1, 15⟩ ⟨2020, 3, 31⟩ 1 365 = Except.error PyErr.unboundLocal :=
  ⟨by norm_num, C9_fail ⟨2020, 1, 15⟩ ⟨2020, 3, 31⟩ 1 365 (by norm_num)⟩

namespace bondmath

/-- bondmath.IRR: the documented parameters are the cash-flow list, the
period list N and an optional starting estimate, but the first statement
evaluates cash_flows[0] / price where the name price is bound nowhere in the
function (as is np in the fallback return np.nan), so after the index lookup
every call raises NameError; the newton call and the except-RuntimeError
branch that would return the nan sentinel are unreachable dead code. -/
noncomputable def IRR (cash_flows : List ℝ) (N : List ℕ) (estimate : ℝ) :
    Except PyErr ℝ :=
  match cash_flows[0]? with
  | none => Except.error PyErr.indexError
  | some _ => Except.error PyErr.nameError

end bondmath

/-- C3: the solver helper IRR can never reach its iteration, let alone raise
a convergence failure carrying the last iterate: called on the spec's own
example flows it fails immediately with NameError (undefined name price),
and its except-RuntimeError handler would return the np.nan sentinel — the
exact behavior the claim forbids — were np not itself undefined. -/
theorem C3_eval :
    bondmath.IRR [8, 108] [1, 2] (1/20) = Except.error PyErr.nameError := rfl

/-- periodIdx has n entries. -/
lemma periodIdx_length (n : ℕ) : (periodIdx n).length = n := by simp [periodIdx]

/-- Zipping a constant coupon against the period indices is a map over the
indices. -/
lemma zip_replicate_map (c : ℝ) (f : ℝ → ℕ → ℝ) :
    ∀ (l : List ℕ),
      (((List.replicate l.length c).zip l).map (fun q => f q.1 q.2)) = l.map (f c) := by
  intro l
  induction l with
  | nil => simp
  | cons b l' ih => simp [List.replicate_succ, ih]

/-- Geometric discount sum: the annuity factor in closed form. -/
lemma sum_geom_inv (y : ℝ) (hy : y ≠ 0) (h1 : (1:ℝ) + y ≠ 0) :
    ∀ n : ℕ, ((List.range n).map (fun i => (1:ℝ) / (1 + y) ^ (i + 1))).sum
      = (1 - 1 / (1 + y) ^ n) / y := by
  intro n
  induction n with
  | zero => simp
  | succ m ih =>
    rw [List.range_succ, List.map_append, List.sum_append, ih]
    simp only [List.map_cons, List.map_nil, List.sum_cons, List.sum_nil]
    field_simp
    ring

/-- A stub-discounted term factors into the stub factor (1+y)^(t/T) times the
integer-period discount. -/
lemma stub_term (y t T : ℝ) (h0 : (0:ℝ) < 1 + y) (c : ℝ) (k : ℕ) :
    c / (1 + y) ^ ((k : ℝ) - t / T) = (1 + y) ^ (t / T) * (c / (1 + y) ^ k) := by
  rw [Real.rpow_sub h0, Real.rpow_natCast, div_div_eq_mul_div]
  ring

/-- Constants factor out of a list sum. -/
lemma sum_map_mul_left_list (l : List ℕ) (b : ℝ) (f : ℕ → ℝ) :
    (l.map (fun i => b * f i)).sum = b * (l.map f).sum := by
  induction l with
  | nil => simp
  | cons a l' ih => simp [ih]; ring

/-- C6 (amended): for at least two periods, y > -1, y ≠ 0 and a stub date
(t ≠ T), the fixed-rate closed form (annuity plus balloon, times the stub
factor) coincides with the variable-rate summation form on a constant coupon
series — the full PriceResult triple agrees; for n = 1 the two paths
disagree because the variable path fails on its pmt[1] lookup. -/
theorem C6_equiv (pmt fv y t T : ℝ) (n : ℕ) (hn : 2 ≤ n) (hy1 : -1 < y)
    (hy0 : y ≠ 0) (ht : t ≠ T) :
    FixedRateBond.dirtyPrice pmt fv y n t T
      = BondInfo.dirtyPrice (List.replicate n pmt) fv y n t T := by
  have h0 : (0:ℝ) < 1 + y := by linarith
  have h1 : (1:ℝ) + y ≠ 0 := ne_of_gt h0
  have hget : (List.replicate n pmt)[1]? = some pmt := by
    rw [List.getElem?_replicate]
    simp [show 1 < n by omega]
  simp only [FixedRateBond.dirtyPrice, BondInfo.dirtyPrice, if_neg ht, hget,
    if_neg (show ¬(1 + y = 0 ∧ n ≠ 0) from fun hc => h1 hc.1),
    if_neg (show ¬(1 + y = 0 ∧ (n : ℝ) - t / T ≠ 0) from fun hc => h1 hc.1)]
  have hrep : (List.replicate n pmt) = List.replicate (periodIdx n).length pmt := by
    rw [periodIdx_length]
  rw [hrep, zip_replicate_map pmt (fun c i => c / (1 + y) ^ ((i : ℝ) - t / T))]
  simp only [periodIdx, List.map_map, Function.comp_def]
  have hterm : ∀ i : ℕ,
      pmt / (1 + y) ^ ((((i + 1) : ℕ) : ℝ) - t / T)
        = (1 + y) ^ (t / T) * (pmt * (1 / (1 + y) ^ (i + 1))) := by
    intro i
    rw [stub_term y t T h0 pmt (i + 1)]
    ring
  simp only [hterm]
  rw [sum_map_mul_left_list (List.range n) ((1 + y) ^ (t / T))
    (fun i => pmt * (1 / (1 + y) ^ (i + 1)))]
  rw [sum_map_mul_left_list (List.range n) pmt (fun i => 1 / (1 + y) ^ (i + 1))]
  rw [sum_geom_inv y hy0 h1 n]
  rw [stub_term y t T h0 fv n]
  have hdp : (pmt / y * (1 - 1 / (1 + y) ^ n) + fv / (1 + y) ^ n) * (1 + y) ^ (t / T)
      = (1 + y) ^ (t / T) * (pmt * ((1 - 1 / (1 + y) ^ n) / y))
        + (1 + y) ^ (t / T) * (fv / (1 + y) ^ n) := by ring
  rw [hdp]

/-- C6 witness: the closed-form/summation agreement at pmt = 4, fv = 100,
y = 1, two periods, stub fraction t/T = 1/2. -/
theorem C6_equiv_witness :
    (2 ≤ 2 ∧ -1 < (1:ℝ) ∧ (1:ℝ) ≠ 0 ∧ (90:ℝ) ≠ 180) ∧
    FixedRateBond.dirtyPrice 4 100 1 2 90 180
      = BondInfo.dirtyPrice (List.replicate 2 4) 100 1 2 90 180 :=
  ⟨⟨by norm_num, by norm_num, by norm_num, by norm_num⟩,
    C6_equiv 4 100 1 90 180 2 (by norm_num) (by norm_num) (by norm_num) (by norm_num)⟩

/-- C6 counterexample: at n = 1 (a claimed-valid period count) the two paths
do NOT agree on a constant coupon: in the stub case the variable-rate path
fails on its pmt[1] lookup (IndexError) while the fixed-rate path returns a
price. -/
theorem C6_counterexample :
    BondInfo.dirtyPrice [(4:ℝ)] 100 (1/20) 1 90 180 =
      Except.error PyErr.indexError ∧
    (FixedRateBond.dirtyPrice 4 100 (1/20) 1 90 180).toOption ≠ none := by
  constructor
  · unfold BondInfo.dirtyPrice
    rw [if_neg (by norm_num), if_neg (by norm_num)]
    rfl
  · unfold FixedRateBond.dirtyPrice
    rw [if_neg (by norm_num), if_neg (by norm_num)]
    simp [Except.toOption]

/-- C1 counterexample: price the 1-period bond (coupon 4, face 100, freq 2,
on-coupon) at per-period yield y = 1/20, then solve at that dirty price:
BondInfo.ytm_couponList returns 1/10 = y * frequency — the annualized rate,
not the per-period rate — and 1/10 is not within solver tolerance of 1/20. -/
theorem C1_counterexample :
    BondInfo.dirtyPrice [(4:ℝ)] 100 (1/20) 1 180 180 =
      Except.ok (104 / (1 + 1/20), 0, 104 / (1 + 1/20)) ∧
    BondInfo.ytm_couponList [(4:ℝ)] 100 1 180 180 2 (104 / (1 + 1/20)) =
      some (1/10) ∧
    ¬ |(1:ℝ)/10 - 1/20| ≤ solverTol := by
  have hf : BondInfo.equation [(4:ℝ)] 100 1 180 180 (104 / (1 + 1/20)) (1/20) = 0 := by
    simp [BondInfo.equation, periodIdx, List.range_succ]
    norm_num
  refine ⟨?_, ?_, ?_⟩
  · unfold BondInfo.dirtyPrice
    rw [if_pos rfl, if_neg (by norm_num)]
    simp [periodIdx, List.range_succ]
    norm_num
  · rw [BondInfo.ytm_couponList, show (1000:ℕ) = 999 + 1 from rfl,
      newtonSolve_succ, hf]
    rw [if_pos (by norm_num [solverTol])]
    simp
    norm_num
  · norm_num [solverTol]
    rw [abs_of_pos (by norm_num : (0:ℝ) < 1/20)]
    norm_num

/-- C1 (amended): the root-finding residual exactly mirrors the pricing
function: whenever the variable-rate pricing call returns a dirty price d at
per-period yield y, that y is an exact root of the residual that
ytm_couponList hands to the solver at observed price d.  The solver's root
is the per-period rate; the code then returns root * frequency. -/
theorem C1_root (pmt : List ℝ) (fv y : ℝ) (n : ℕ) (t T d ai cp : ℝ)
    (h : BondInfo.dirtyPrice pmt fv y n t T = Except.ok (d, ai, cp)) :
    BondInfo.equation pmt fv n t T d y = 0 := by
  by_cases ht : t = T
  · simp only [BondInfo.dirtyPrice, if_pos ht] at h
    by_cases hz : 1 + y = 0 ∧ n ≠ 0
    · rw [if_pos hz] at h
      exact Except.noConfusion h
    · rw [if_neg hz] at h
      simp only [Except.ok.injEq, Prod.mk.injEq] at h
      simp only [BondInfo.equation, if_pos ht]
      rw [← h.1]
      ring
  · simp only [BondInfo.dirtyPrice, if_neg ht] at h
    by_cases hz : 1 + y = 0 ∧ (n : ℝ) - t / T ≠ 0
    · rw [if_pos hz] at h
      exact Except.noConfusion h
    · rw [if_neg hz] at h
      cases hp : pmt[1]? with
      | none => rw [hp] at h; exact Except.noConfusion h
      | some p1 =>
        rw [hp] at h
        simp only [Except.ok.injEq, Prod.mk.injEq] at h
        simp only [BondInfo.equation, if_neg ht]
        rw [← h.1]
        ring

/-- C1 witness: the exact-root property at the 1-period bond priced at
y = 1/20. -/
theorem C1_root_witness :
    BondInfo.dirtyPrice [(4:ℝ)] 100 (1/20) 1 180 180 =
      Except.ok (104 / (1 + 1/20), 0, 104 / (1 + 1/20)) ∧
    BondInfo.equation [(4:ℝ)] 100 1 180 180 (104 / (1 + 1/20)) (1/20) = 0 := by
  have h : BondInfo.dirtyPrice [(4:ℝ)] 100 (1/20) 1 180 180 =
      Except.ok (104 / (1 + 1/20), 0, 104 / (1 + 1/20)) := by
    unfold BondInfo.dirtyPrice
    rw [if_pos rfl, if_neg (by norm_num)]
    simp [periodIdx, List.range_succ]
    norm_num
  exact ⟨h, C1_root [(4:ℝ)] 100 (1/20) 1 180 180 (104 / (1 + 1/20)) 0
    (104 / (1 + 1/20)) h⟩
